import Mathlib

/-!
Shallow embedding of demo/setup_demo_data.py.

The script draws from Python's global Mersenne-Twister generator, seeded
once with SEED = 42 at import time.  We model the pseudo-random source as
an explicit state: an infinite stream of natural numbers together with a
cursor; each primitive draw consumes one stream value.  The individual
primitives mirror the Python library calls:

  * random.randint(a, b)      -> a + v % (b - a + 1), always in [a, b];
  * random.random()           -> v % 1000000, a value in [0, 999999]
                                 standing for a real in [0, 1) with six
                                 decimal digits of resolution; a float
                                 comparison r < t becomes v < t * 10^6;
  * random.uniform(a, b)      -> a + (v % 1000001) * (b - a) / 10^6 as an
                                 exact rational, always in [a, b];
  * random.choice(items)      -> items[(v % len(items))];
  * random.choices(items, w)  -> cumulative-weight selection on v % sum w,
                                 with the float weights of the script
                                 scaled by 100 to integers;
  * random.paretovariate(a)   -> int(paretovariate(a)) is abstracted as a
                                 raw stream value (the exponent a shapes
                                 only the distribution, which no claim
                                 depends on).

Dates are day offsets from DATE_START = 2024-01-01 (randint(0, 730) in the
script, since (DATE_END - DATE_START).days = 730 across the leap year 2024
and 2025); event timestamps are minutes from that midnight, which orders
exactly like the fixed-width strftime strings the script stores.  Python's
round(x, 2) (half-to-even on binary floats) is modelled as exact rational
rounding half-up to cents; every property proved here is insensitive to
the tie-breaking rule.  The four-hex-digit MD5 tag inside email addresses
is a fixed pure function whose value no claim depends on; it is modelled
as an abstract constant function.
-/

namespace SetupDemo

/-- The pseudo-random source: an infinite stream of naturals and a cursor. -/
structure RandState where
  stream : Nat → Nat
  pos : Nat

/-- Consume one raw value from the stream. -/
def randNext (s : RandState) : Nat × RandState :=
  (s.stream s.pos, ⟨s.stream, s.pos + 1⟩)

/-- Model of random.randint(a, b): a value in [a, b] (for a ≤ b). -/
def randIntN (a b : Nat) (s : RandState) : Nat × RandState :=
  let (v, s) := randNext s
  (a + v % (b + 1 - a), s)

/-- Model of random.random(): a six-digit fixed-point value in [0, 999999],
standing for a uniform real in [0, 1); a comparison random.random() < t
becomes the integer comparison with t * 10^6. -/
def randUnit (s : RandState) : Nat × RandState :=
  let (v, s) := randNext s
  (v % 1000000, s)

/-- Model of random.uniform(a, b): an exact rational in [a, b] (for a ≤ b). -/
def uniformQ (a b : ℚ) (s : RandState) : ℚ × RandState :=
  let (v, s) := randNext s
  (a + ((v % 1000001 : Nat) : ℚ) * (b - a) / 1000000, s)

/-- Model of random.choice(items): the element at index v % len(items).
Total via a default for the empty list, on which the library call raises. -/
def randChoice {α : Type} (items : List α) (d : α) (s : RandState) : α × RandState :=
  let (v, s) := randNext s
  (items.getD (v % items.length) d, s)

/-- Cumulative-weight walk used to model random.choices. -/
def pickW {α : Type} : List α → List Nat → Nat → α → α
  | [], _, _, d => d
  | x :: _, [], _, _ => x
  | x :: xs, w :: ws, t, d => if t < w then x else pickW xs ws (t - w) d

/-- Model of random.choices(items, weights, k=1)[0] with integer weights
(the script's float weights scaled by 100, so each weight list sums to 100). -/
def choicesW {α : Type} (items : List α) (weights : List Nat) (d : α)
    (s : RandState) : α × RandState :=
  let (v, s) := randNext s
  (pickW items weights (v % weights.sum) d, s)

/-- Model of round(x, 2): rational rounding to cents.  (Half-up; see the
file comment on Python's float tie-breaking.) -/
def round2 (x : ℚ) : ℚ :=
  ((⌊100 * x + 1 / 2⌋ : ℤ) : ℚ) / 100

-- ---------------------------------------------------------------------------
-- Configuration constants of the script
-- ---------------------------------------------------------------------------

def SEED : Nat := 42

def NUM_CUSTOMERS : Nat := 2000
def NUM_PRODUCTS : Nat := 200
def NUM_ORDERS : Nat := 10000
def NUM_EVENTS : Nat := 50000

/-- (DATE_END - DATE_START).days for 2024-01-01 .. 2025-12-31. -/
def DATE_DELTA : Nat := 730

def FIRST_NAMES : List String := [
  "James", "Mary", "Robert", "Patricia", "John", "Jennifer", "Michael",
  "Linda", "David", "Elizabeth", "William", "Barbara", "Richard", "Susan",
  "Joseph", "Jessica", "Thomas", "Sarah", "Christopher", "Karen", "Daniel",
  "Lisa", "Matthew", "Nancy", "Anthony", "Betty", "Mark", "Margaret",
  "Steven", "Sandra", "Paul", "Ashley", "Andrew", "Dorothy", "Joshua",
  "Kimberly", "Kenneth", "Emily", "Kevin", "Donna", "Brian", "Michelle",
  "George", "Carol", "Timothy", "Amanda", "Ronald", "Melissa", "Edward",
  "Deborah", "Jason", "Stephanie", "Jeffrey", "Rebecca", "Ryan", "Sharon",
  "Jacob", "Laura", "Gary", "Cynthia", "Nicholas", "Kathleen", "Eric",
  "Amy", "Jonathan", "Angela", "Stephen", "Shirley", "Larry", "Anna"]

def LAST_NAMES : List String := [
  "Smith", "Johnson", "Williams", "Brown", "Jones", "Garcia", "Miller",
  "Davis", "Rodriguez", "Martinez", "Hernandez", "Lopez", "Gonzalez",
  "Wilson", "Anderson", "Thomas", "Taylor", "Moore", "Jackson", "Martin",
  "Lee", "Perez", "Thompson", "White", "Harris", "Sanchez", "Clark",
  "Ramirez", "Lewis", "Robinson", "Walker", "Young", "Allen", "King",
  "Wright", "Scott", "Torres", "Nguyen", "Hill", "Flores", "Green",
  "Adams", "Nelson", "Baker", "Hall", "Rivera", "Campbell", "Mitchell",
  "Carter", "Roberts", "Chen", "Patel", "Shah", "Kim", "Park", "Singh"]

def CITIES : List String := [
  "New York", "Los Angeles", "Chicago", "Houston", "Phoenix", "Philadelphia",
  "San Antonio", "San Diego", "Dallas", "San Jose", "Austin", "Jacksonville",
  "Fort Worth", "Columbus", "Charlotte", "Indianapolis", "San Francisco",
  "Seattle", "Denver", "Washington", "Nashville", "Oklahoma City",
  "El Paso", "Boston", "Portland", "Las Vegas", "Memphis", "Louisville",
  "Baltimore", "Milwaukee"]

def SEGMENTS : List String := ["enterprise", "mid-market", "smb"]

/-- SEGMENT_WEIGHTS = [0.15, 0.30, 0.55], scaled by 100. -/
def SEGMENT_WEIGHTS : List Nat := [15, 30, 55]

/-- The category -> subcategories taxonomy, in dict insertion order. -/
def CATEGORIES : List (String × List String) := [
  ("Electronics", ["Laptops", "Phones", "Tablets", "Accessories", "Audio"]),
  ("Clothing", ["Tops", "Bottoms", "Outerwear", "Footwear", "Activewear"]),
  ("Home & Kitchen", ["Cookware", "Furniture", "Decor", "Appliances", "Bedding"]),
  ("Office Supplies", ["Writing", "Paper", "Organization", "Tech Accessories", "Bags"])]

def PAYMENT_METHODS : List String :=
  ["credit_card", "debit_card", "paypal", "wire_transfer"]

/-- PAYMENT_WEIGHTS = [0.45, 0.25, 0.20, 0.10], scaled by 100. -/
def PAYMENT_WEIGHTS : List Nat := [45, 25, 20, 10]

def DEVICE_TYPES : List String := ["desktop", "mobile", "tablet"]

/-- DEVICE_WEIGHTS = [0.40, 0.45, 0.15], scaled by 100. -/
def DEVICE_WEIGHTS : List Nat := [40, 45, 15]

def EMAIL_DOMAINS : List String :=
  ["gmail.com", "yahoo.com", "outlook.com", "company.io", "mail.com"]

def ADJECTIVES : List String :=
  ["Pro", "Ultra", "Basic", "Premium", "Lite", "Max", "Classic", "Elite",
   "Essential", "Advanced"]

-- ---------------------------------------------------------------------------
-- Dates
-- ---------------------------------------------------------------------------

/-- Month lengths of 2024 (leap) followed by 2025. -/
def MONTH_LENGTHS : List Nat :=
  [31, 29, 31, 30, 31, 30, 31, 31, 30, 31, 30, 31,
   31, 28, 31, 30, 31, 30, 31, 31, 30, 31, 30, 31]

/-- Walk the month table; i counts months already passed. -/
def monthOfAux : List Nat → Nat → Nat → Nat
  | [], _, _ => 12
  | len :: rest, d, i => if d < len then i % 12 + 1 else monthOfAux rest (d - len) (i + 1)

/-- Calendar month (1..12) of the date at day offset d from 2024-01-01. -/
def monthOf (d : Nat) : Nat := monthOfAux MONTH_LENGTHS d 0

/-- random_date(DATE_START, DATE_END): a day offset drawn by
randint(0, delta) with delta = 730. -/
def randomDate (s : RandState) : Nat × RandState :=
  randIntN 0 DATE_DELTA s

/-- seasonal_date(DATE_START, DATE_END).  The script recurses unboundedly
on the Q1 rejection branch; the embedding carries explicit fuel and, when
fuel runs out, accepts the plain uniform draw.  On every run on which the
script terminates within the given number of retries the two agree.
Note the short-circuit: random.random() is consumed only on Q1 months. -/
def seasonalDate : Nat → RandState → Nat × RandState
  | 0, s => randomDate s
  | fuel + 1, s =>
    let t := randomDate s
    let m := monthOf t.1
    if m = 10 ∨ m = 11 ∨ m = 12 then t
    else if m = 1 ∨ m = 2 ∨ m = 3 then
      let tR := randUnit t.2
      if tR.1 < 300000 then seasonalDate fuel tR.2 else (t.1, tR.2)
    else t

-- ---------------------------------------------------------------------------
-- pareto_choice and make_email
-- ---------------------------------------------------------------------------

/-- The index computed by pareto_choice: int(random.paretovariate(alpha))
abstracted as a raw stream value, reduced modulo len(items). -/
def paretoIdx (n : Nat) (s : RandState) : Nat × RandState :=
  let (v, s) := randNext s
  (v % n, s)

/-- pareto_choice(items, alpha): items[int(paretovariate(alpha)) % len(items)].
alpha shapes only the distribution of the abstracted draw. -/
def paretoChoice {α : Type} (items : List α) (_alpha : ℚ) (d : α)
    (s : RandState) : α × RandState :=
  let (i, s) := paretoIdx items.length s
  (items.getD i d, s)

/-- Abstract model of the four-hex-digit MD5 tag of make_email: a fixed
pure function of its inputs (no claim depends on its value). -/
def md5hex4 (_first _last : String) (_idx : Nat) : String := ""

/-- make_email(first, last, idx). -/
def makeEmail (first last : String) (idx : Nat) (s : RandState) : String × RandState :=
  let tag := md5hex4 first last idx
  let (domain, s) := randChoice EMAIL_DOMAINS "" s
  (first.toLower ++ "." ++ last.toLower ++ tag ++ "@" ++ domain, s)

-- ---------------------------------------------------------------------------
-- Row types
-- ---------------------------------------------------------------------------

/-- A customers row: (customer_id, name, email, city, signup_date, segment);
signup_date is a day offset from 2024-01-01. -/
structure CustomerRow where
  cid : Nat
  name : String
  email : String
  city : Option String
  signupDate : Nat
  segment : String
deriving DecidableEq

/-- A products row: (product_id, name, category, subcategory, cost_price,
list_price). -/
structure ProductRow where
  pid : Nat
  name : String
  category : String
  subcategory : String
  costPrice : ℚ
  listPrice : ℚ
deriving DecidableEq

/-- An orders row: (order_id, customer_id, order_date, product_id, quantity,
unit_price, total_amount, status, payment_method). -/
structure OrderRow where
  oid : Nat
  customerId : Nat
  orderDate : Nat
  productId : Nat
  quantity : Nat
  unitPrice : ℚ
  totalAmount : ℚ
  status : String
  payment : String
deriving DecidableEq

/-- An events row: (event_id, customer_id, event_type, timestamp, session_id,
device_type); the timestamp is in minutes from the 2024-01-01 midnight and
the session id is the numeric counter inside the sess_NNNNNN string. -/
structure EventRow where
  eid : Nat
  customerId : Nat
  eventType : String
  ts : Nat
  sessionId : Nat
  device : String
deriving DecidableEq

-- ---------------------------------------------------------------------------
-- generate_customers
-- ---------------------------------------------------------------------------

/-- One iteration of the generate_customers loop, for customer id i.
Draw order follows the script: first, last, email domain, the 0.03 null-city
test (the city choice is drawn only when the test accepts), signup date,
segment. -/
def customerRow (i : Nat) (s : RandState) : CustomerRow × RandState :=
  let tFirst := randChoice FIRST_NAMES "" s
  let tLast := randChoice LAST_NAMES "" tFirst.2
  let name := tFirst.1 ++ " " ++ tLast.1
  let tEmail := makeEmail tFirst.1 tLast.1 i tLast.2
  let tR := randUnit tEmail.2
  let tCity : Option String × RandState :=
    if 30000 < tR.1 then
      let tC := randChoice CITIES "" tR.2
      (some tC.1, tC.2)
    else (none, tR.2)
  let tDate := randomDate tCity.2
  let tSeg := choicesW SEGMENTS SEGMENT_WEIGHTS "" tDate.2
  (⟨i, name, tEmail.1, tCity.1, tDate.1, tSeg.1⟩, tSeg.2)

/-- The generate_customers loop over the list of customer ids. -/
def customersLoop : List Nat → RandState → List CustomerRow × RandState
  | [], s => ([], s)
  | i :: rest, s =>
    let tRow := customerRow i s
    let tRows := customersLoop rest tRow.2
    (tRow.1 :: tRows.1, tRows.2)

/-- generate_customers(): rows for ids 1 .. NUM_CUSTOMERS. -/
def generateCustomers (s : RandState) : List CustomerRow × RandState :=
  customersLoop (List.range' 1 NUM_CUSTOMERS) s

-- ---------------------------------------------------------------------------
-- generate_products
-- ---------------------------------------------------------------------------

/-- Python str.rstrip with the single character s. -/
def stripS (x : String) : String :=
  String.mk (x.toList.reverse.dropWhile (fun c => c = 's')).reverse

/-- One taxonomy-pass product row (the branch with the ~3% defect
injection where list_price = cost * uniform(0.5, 0.9)). -/
def taxonomyRow (pid : Nat) (category subcat : String) (s : RandState) :
    ProductRow × RandState :=
  let tAdj := randChoice ADJECTIVES "" s
  let name := tAdj.1 ++ " " ++ stripS subcat ++ " " ++ Nat.repr pid
  let tC := uniformQ 5 200 tAdj.2
  let cost := round2 tC.1
  let tR := randUnit tC.2
  let tM :=
    if tR.1 < 30000 then uniformQ (1 / 2) (9 / 10) tR.2
    else uniformQ (6 / 5) 3 tR.2
  (⟨pid, name, category, subcat, cost, round2 (cost * tM.1)⟩, tM.2)

/-- The inner `for _ in range(per_subcat)` loop. -/
def prodCount : Nat → Nat → String → String → RandState →
    List ProductRow × Nat × RandState
  | 0, pid, _, _, s => ([], pid, s)
  | n + 1, pid, category, subcat, s =>
    let tRow := taxonomyRow pid category subcat s
    let tRest := prodCount n (pid + 1) category subcat tRow.2
    (tRow.1 :: tRest.1, tRest.2.1, tRest.2.2)

/-- The `for subcat in subcats` loop. -/
def subcatLoop : List String → Nat → Nat → String → RandState →
    List ProductRow × Nat × RandState
  | [], pid, _, _, s => ([], pid, s)
  | subcat :: subcats, pid, per, category, s =>
    let t1 := prodCount per pid category subcat s
    let t2 := subcatLoop subcats t1.2.1 per category t1.2.2
    (t1.1 ++ t2.1, t2.2.1, t2.2.2)

/-- The `for category, subcats in CATEGORIES.items()` loop; per_subcat is
recomputed per category as NUM_PRODUCTS // (len(CATEGORIES) * len(subcats)). -/
def catLoop : List (String × List String) → Nat → RandState →
    List ProductRow × Nat × RandState
  | [], pid, s => ([], pid, s)
  | (category, subcats) :: rest, pid, s =>
    let per := NUM_PRODUCTS / (CATEGORIES.length * subcats.length)
    let t1 := subcatLoop subcats pid per category s
    let t2 := catLoop rest t1.2.1 t1.2.2
    (t1.1 ++ t2.1, t2.2.1, t2.2.2)

/-- One top-up row (`while len(rows) < NUM_PRODUCTS`); the top-up branch
never injects the pricing defect. -/
def topupRow (pid : Nat) (s : RandState) : ProductRow × RandState :=
  let tCat := randChoice (CATEGORIES.map (fun kv => kv.1)) "" s
  let tSub := randChoice ((CATEGORIES.lookup tCat.1).getD []) "" tCat.2
  let tAdj := randChoice ADJECTIVES "" tSub.2
  let name := tAdj.1 ++ " " ++ stripS tSub.1 ++ " " ++ Nat.repr pid
  let tC := uniformQ 5 200 tAdj.2
  let cost := round2 tC.1
  let tM := uniformQ (6 / 5) 3 tC.2
  (⟨pid, name, tCat.1, tSub.1, cost, round2 (cost * tM.1)⟩, tM.2)

/-- The top-up loop, run for the number of missing rows: the script's
`while len(rows) < NUM_PRODUCTS` appends exactly NUM_PRODUCTS - len(rows)
rows (none when the taxonomy pass already reached the target). -/
def topupN : Nat → Nat → RandState → List ProductRow × RandState
  | 0, _, s => ([], s)
  | n + 1, pid, s =>
    let tRow := topupRow pid s
    let tRest := topupN n (pid + 1) tRow.2
    (tRow.1 :: tRest.1, tRest.2)

/-- generate_products(). -/
def generateProducts (s : RandState) : List ProductRow × RandState :=
  let t := catLoop CATEGORIES 1 s
  let tExtra := topupN (NUM_PRODUCTS - t.1.length) t.2.1 t.2.2
  (t.1 ++ tExtra.1, tExtra.2)

-- ---------------------------------------------------------------------------
-- generate_orders
-- ---------------------------------------------------------------------------

/-- One iteration of the generate_orders loop, for order id i.  Draw order
follows the script: pareto customer, uniform product, seasonal date,
weighted quantity, (no draw for the price lookup), the status threshold
draw, weighted payment method.  fuel bounds the seasonal-date retries. -/
def orderRow (fuel : Nat) (customerIds productIds : List Nat)
    (prices : List (Nat × ℚ)) (i : Nat) (s : RandState) : OrderRow × RandState :=
  let tCid := paretoChoice customerIds (6 / 5) 0 s
  let tPid := randChoice productIds 0 tCid.2
  let tDate := seasonalDate fuel tPid.2
  let tQ := choicesW ([1, 2, 3, 4, 5] : List Nat) [50, 25, 15, 7, 3] 1 tDate.2
  let unitPrice := ((prices.lookup tPid.1).getD 0 : ℚ)
  let total := round2 (unitPrice * (tQ.1 : ℚ))
  let tR := randUnit tQ.2
  let status :=
    if tR.1 < 100000 then "cancelled"
    else if tR.1 < 150000 then "returned"
    else "completed"
  let tPm := choicesW PAYMENT_METHODS PAYMENT_WEIGHTS "" tR.2
  (⟨i, tCid.1, tDate.1, tPid.1, tQ.1, unitPrice, total, status, tPm.1⟩, tPm.2)

/-- The generate_orders loop over the list of order ids. -/
def ordersLoop (fuel : Nat) (customerIds productIds : List Nat)
    (prices : List (Nat × ℚ)) : List Nat → RandState → List OrderRow × RandState
  | [], s => ([], s)
  | i :: rest, s =>
    let tRow := orderRow fuel customerIds productIds prices i s
    let tRest := ordersLoop fuel customerIds productIds prices rest tRow.2
    (tRow.1 :: tRest.1, tRest.2)

/-- generate_orders(customers, products): NUM_ORDERS generated rows, then
the rows at indices duplicate_target .. duplicate_target + 4 appended
verbatim, with duplicate_target = randint(8050, 8150) drawn up front.
(The script indexes rows[duplicate_target + dup_offset], which raises when
out of range; drop/take agrees with it whenever the indices are in range,
which they always are here — see the safety theorem.) -/
def generateOrders (fuel : Nat) (customers : List CustomerRow)
    (products : List ProductRow) (s : RandState) : List OrderRow × RandState :=
  let customerIds := customers.map (fun c => c.cid)
  let productIds := products.map (fun p => p.pid)
  let prices := products.map (fun p => (p.pid, p.listPrice))
  let tDt := randIntN 8050 8150 s
  let tRows := ordersLoop fuel customerIds productIds prices
    (List.range' 1 NUM_ORDERS) tDt.2
  (tRows.1 ++ (tRows.1.drop tDt.1).take 5, tRows.2)

-- ---------------------------------------------------------------------------
-- generate_events
-- ---------------------------------------------------------------------------

/-- The generate_events while loop, with explicit fuel: one unit of fuel per
outer iteration (each outer iteration emits at least one event, so
NUM_EVENTS units suffice).  eid is the next event id, sc the session
counter; the loop runs while eid <= n, and every inner append is guarded by
an eid > n break exactly as in the script. -/
def eventsLoop (n : Nat) (customerIds : List Nat) :
    Nat → Nat → Nat → RandState → List EventRow × RandState
  | 0, _, _, s => ([], s)
  | fuel + 1, eid, sc, s =>
    if n < eid then ([], s)
    else
      let tCid := paretoChoice customerIds (6 / 5) 0 s
      let tDev := choicesW DEVICE_TYPES DEVICE_WEIGHTS "" tCid.2
      let tBase := randomDate tDev.2
      let baseTs := tBase.1 * 1440
      let pv : EventRow := ⟨eid, tCid.1, "page_view", baseTs, sc, tDev.1⟩
      if n < eid + 1 then ([pv], tBase.2)
      else
        let tR1 := randUnit tBase.2
        if tR1.1 < 300000 then
          let tM1 := randIntN 1 10 tR1.2
          let cart : EventRow := ⟨eid + 1, tCid.1, "add_to_cart", baseTs + tM1.1, sc, tDev.1⟩
          if n < eid + 2 then ([pv, cart], tM1.2)
          else
            let tR2 := randUnit tM1.2
            if tR2.1 < 500000 then
              let tM2 := randIntN 11 20 tR2.2
              let ck : EventRow := ⟨eid + 2, tCid.1, "checkout_start", baseTs + tM2.1, sc, tDev.1⟩
              if n < eid + 3 then ([pv, cart, ck], tM2.2)
              else
                let tR3 := randUnit tM2.2
                if tR3.1 < 700000 then
                  let tM3 := randIntN 21 30 tR3.2
                  let pu : EventRow := ⟨eid + 3, tCid.1, "purchase", baseTs + tM3.1, sc, tDev.1⟩
                  if n < eid + 4 then ([pv, cart, ck, pu], tM3.2)
                  else
                    let tRest := eventsLoop n customerIds fuel (eid + 4) (sc + 1) tM3.2
                    (pv :: cart :: ck :: pu :: tRest.1, tRest.2)
                else
                  let tRest := eventsLoop n customerIds fuel (eid + 3) (sc + 1) tR3.2
                  (pv :: cart :: ck :: tRest.1, tRest.2)
            else
              let tRest := eventsLoop n customerIds fuel (eid + 2) (sc + 1) tR2.2
              (pv :: cart :: tRest.1, tRest.2)
        else
          let tRest := eventsLoop n customerIds fuel (eid + 1) (sc + 1) tR1.2
          (pv :: tRest.1, tRest.2)

/-- generate_events(customers). -/
def generateEvents (customers : List CustomerRow) (s : RandState) :
    List EventRow × RandState :=
  eventsLoop NUM_EVENTS (customers.map (fun c => c.cid)) NUM_EVENTS 1 1 s

-- ---------------------------------------------------------------------------
-- The whole generation phase, sharing one seeded stream
-- ---------------------------------------------------------------------------

/-- The four generator calls of load_data, in program order, threading the
single global generator state seeded once with SEED. -/
def generateAll (fuel : Nat) (s : RandState) :
    List CustomerRow × List ProductRow × List OrderRow × List EventRow :=
  let tCust := generateCustomers s
  let tProd := generateProducts tCust.2
  let tOrd := generateOrders fuel tCust.1 tProd.1 tProd.2
  let tEv := generateEvents tCust.1 tOrd.2
  (tCust.1, tProd.1, tOrd.1, tEv.1)

-- ---------------------------------------------------------------------------
-- load_data: connection lifetime model
-- ---------------------------------------------------------------------------

/-- A database call made by load_data through the open connection. -/
inductive DbOp where
  | dropT : String → DbOp
  | createT : String → DbOp
  | insertRows : String → DbOp
  | query : String → DbOp
deriving DecidableEq

/-- The database calls of load_data between duckdb.connect and con.close,
in program order: four drops, four creates, four bulk inserts, then the
summary queries (four counts, date range, revenue, cancellation rate, null
cities, mispriced products, duplicate orders, funnel). -/
def loadDataOps : List DbOp := [
  DbOp.dropT "events", DbOp.dropT "orders", DbOp.dropT "products",
  DbOp.dropT "customers",
  DbOp.createT "customers", DbOp.createT "products", DbOp.createT "orders",
  DbOp.createT "events",
  DbOp.insertRows "customers", DbOp.insertRows "products",
  DbOp.insertRows "orders", DbOp.insertRows "events",
  DbOp.query "count customers", DbOp.query "count products",
  DbOp.query "count orders", DbOp.query "count events",
  DbOp.query "order date range", DbOp.query "completed revenue",
  DbOp.query "cancellation rate", DbOp.query "null cities",
  DbOp.query "mispriced products", DbOp.query "duplicate orders",
  DbOp.query "funnel"]

/-- Run the calls in order against a failure model; true iff all succeed
(the first failing call raises and the rest are not reached). -/
def runOps (fails : DbOp → Bool) : List DbOp → Bool
  | [] => true
  | op :: rest => if fails op then false else runOps fails rest

/-- What happened to the connection in one run of load_data. -/
structure ConnTrace where
  opened : Bool
  closed : Bool
  raised : Bool
deriving DecidableEq

/-- Connection lifetime of load_data: the body is a straight-line sequence
with no try/finally, so con.close() (the last statement) runs iff
duckdb.connect and every database call before it succeeded; a raise
anywhere skips everything after it, including the close. -/
def loadDataTrace (connectFails : Bool) (fails : DbOp → Bool) : ConnTrace :=
  if connectFails then ⟨false, false, true⟩
  else if runOps fails loadDataOps then ⟨true, true, false⟩
  else ⟨true, false, true⟩

-- ---------------------------------------------------------------------------
-- Basic facts about the random primitives
-- ---------------------------------------------------------------------------

theorem randIntN_fst (a b : Nat) (s : RandState) :
    (randIntN a b s).1 = a + s.stream s.pos % (b + 1 - a) := rfl

theorem le_randIntN (a b : Nat) (s : RandState) : a ≤ (randIntN a b s).1 :=
  Nat.le_add_right _ _

theorem randIntN_le (a b : Nat) (s : RandState) (h : a ≤ b) :
    (randIntN a b s).1 ≤ b := by
  have h1 : s.stream s.pos % (b + 1 - a) < b + 1 - a :=
    Nat.mod_lt _ (by omega)
  rw [randIntN_fst]
  omega

theorem randomDate_le (s : RandState) : (randomDate s).1 ≤ DATE_DELTA :=
  randIntN_le 0 DATE_DELTA s (by omega)

theorem uniformQ_le {a b : ℚ} (h : a ≤ b) (s : RandState) :
    a ≤ (uniformQ a b s).1 ∧ (uniformQ a b s).1 ≤ b := by
  simp only [uniformQ, randNext]
  constructor
  · have : (0 : ℚ) ≤ ((s.stream s.pos % 1000001 : Nat) : ℚ) * (b - a) / 1000000 := by
      apply div_nonneg
      · exact mul_nonneg (by positivity) (by linarith)
      · norm_num
    linarith
  · have hv : ((s.stream s.pos % 1000001 : Nat) : ℚ) ≤ 1000000 := by
      have : s.stream s.pos % 1000001 < 1000001 := Nat.mod_lt _ (by omega)
      exact_mod_cast Nat.le_of_lt_succ this
    have hba : (0 : ℚ) ≤ b - a := by linarith
    have : ((s.stream s.pos % 1000001 : Nat) : ℚ) * (b - a) ≤ 1000000 * (b - a) :=
      mul_le_mul_of_nonneg_right hv hba
    have : ((s.stream s.pos % 1000001 : Nat) : ℚ) * (b - a) / 1000000 ≤ b - a := by
      rw [div_le_iff₀ (by norm_num : (0:ℚ) < 1000000)]
      linarith
    linarith

/-- Rounding to cents can drop a value by less than half a cent. -/
theorem round2_ge (n : ℤ) (x : ℚ) (h : (n : ℚ) ≤ 100 * x) :
    (n : ℚ) / 100 ≤ round2 x := by
  unfold round2
  have hfl : n ≤ ⌊100 * x + 1 / 2⌋ := Int.le_floor.mpr (by linarith)
  have h2 : (n : ℚ) ≤ ((⌊100 * x + 1 / 2⌋ : ℤ) : ℚ) := by exact_mod_cast hfl
  exact (div_le_div_iff_of_pos_right (by norm_num : (0:ℚ) < 100)).mpr h2

/-- The cumulative-weight pick lands in the item list or on the default. -/
theorem pickW_prop {α : Type} (P : α → Prop) :
    ∀ (items : List α) (ws : List Nat) (t : Nat) (d : α),
      (∀ x ∈ items, P x) → P d → P (pickW items ws t d)
  | [], _, _, _ => by intro _ hd; simpa [pickW]
  | x :: xs, [], t, d => by
    intro hmem _; simpa [pickW] using hmem x (by simp)
  | x :: xs, w :: ws, t, d => by
    intro hmem hd
    simp only [pickW]
    split
    · exact hmem x (by simp)
    · exact pickW_prop P xs ws (t - w) d (fun y hy => hmem y (by simp [hy])) hd

theorem choicesW_prop {α : Type} (P : α → Prop) (items : List α)
    (ws : List Nat) (d : α) (s : RandState)
    (hmem : ∀ x ∈ items, P x) (hd : P d) : P (choicesW items ws d s).1 := by
  simp only [choicesW, randNext]
  exact pickW_prop P items ws _ d hmem hd

theorem getD_mem_of_lt {α : Type} (l : List α) (n : Nat) (d : α)
    (h : n < l.length) : l.getD n d ∈ l := by
  rw [List.getD_eq_getElem l d h]
  exact List.getElem_mem h

theorem randChoice_prop {α : Type} (P : α → Prop) (items : List α) (d : α)
    (s : RandState) (hmem : ∀ x ∈ items, P x) (hd : P d) :
    P (randChoice items d s).1 := by
  simp only [randChoice, randNext]
  rcases items with _ | ⟨y, ys⟩
  · simpa using hd
  · exact hmem _ (getD_mem_of_lt _ _ _ (Nat.mod_lt _ (by simp)))

end SetupDemo

namespace SetupDemo

-- ---------------------------------------------------------------------------
-- Row counts
-- ---------------------------------------------------------------------------

theorem customersLoop_length (l : List Nat) :
    ∀ s : RandState, ((customersLoop l s).1).length = l.length := by
  induction l with
  | nil => intro s; rfl
  | cons i rest ih => intro s; simp [customersLoop, ih]

theorem generateCustomers_length (s : RandState) :
    ((generateCustomers s).1).length = NUM_CUSTOMERS := by
  simp [generateCustomers, customersLoop_length]

theorem prodCount_length (n : Nat) :
    ∀ (pid : Nat) (category subcat : String) (s : RandState),
      ((prodCount n pid category subcat s).1).length = n := by
  induction n with
  | zero => intro pid c sub s; rfl
  | succ n ih => intro pid c sub s; simp [prodCount, ih]

theorem subcatLoop_length (subs : List String) :
    ∀ (pid per : Nat) (category : String) (s : RandState),
      ((subcatLoop subs pid per category s).1).length = subs.length * per := by
  induction subs with
  | nil => intro pid per c s; simp [subcatLoop]
  | cons sub subs ih =>
    intro pid per c s
    simp [subcatLoop, prodCount_length, ih]
    ring

theorem catLoop_length (cats : List (String × List String)) :
    ∀ (pid : Nat) (s : RandState),
      ((catLoop cats pid s).1).length =
        (cats.map (fun kv =>
          kv.2.length * (NUM_PRODUCTS / (CATEGORIES.length * kv.2.length)))).sum := by
  induction cats with
  | nil => intro pid s; simp [catLoop]
  | cons kv rest ih =>
    intro pid s
    cases kv with
    | mk c subs => simp [catLoop, subcatLoop_length, ih]

theorem catLoop_CATEGORIES_length (s : RandState) :
    ((catLoop CATEGORIES 1 s).1).length = 200 := by
  rw [catLoop_length]
  rfl

theorem topupN_length (n : Nat) :
    ∀ (pid : Nat) (s : RandState), ((topupN n pid s).1).length = n := by
  induction n with
  | zero => intro pid s; rfl
  | succ n ih => intro pid s; simp [topupN, ih]

theorem generateProducts_eq_taxonomy (s : RandState) :
    (generateProducts s).1 = (catLoop CATEGORIES 1 s).1 := by
  have h := catLoop_CATEGORIES_length s
  simp only [generateProducts]
  rw [show NUM_PRODUCTS - ((catLoop CATEGORIES 1 s).1).length = 0 by rw [h]; rfl]
  simp [topupN]

theorem generateProducts_length (s : RandState) :
    ((generateProducts s).1).length = NUM_PRODUCTS := by
  rw [generateProducts_eq_taxonomy, catLoop_CATEGORIES_length]
  rfl

/-- C8: generate_products returns exactly NUM_PRODUCTS rows; the taxonomy
pass produces NUM_PRODUCTS // (len(CATEGORIES) * len(subcats)) rows per
subcategory, 200 rows in total under the default NUM_PRODUCTS = 200, so
the top-up loop runs zero times and contributes nothing: the result is
exactly the taxonomy-pass row list. -/
theorem products_count_spec (s : RandState) :
    ((generateProducts s).1).length = NUM_PRODUCTS ∧
    ((catLoop CATEGORIES 1 s).1).length = 200 ∧
    (generateProducts s).1 = (catLoop CATEGORIES 1 s).1 :=
  ⟨generateProducts_length s, catLoop_CATEGORIES_length s,
    generateProducts_eq_taxonomy s⟩

theorem ordersLoop_length (fuel : Nat) (cids pids : List Nat)
    (prices : List (Nat × ℚ)) (l : List Nat) :
    ∀ s : RandState, ((ordersLoop fuel cids pids prices l s).1).length = l.length := by
  induction l with
  | nil => intro s; rfl
  | cons i rest ih => intro s; simp [ordersLoop, ih]

theorem generateOrders_length (fuel : Nat) (customers : List CustomerRow)
    (products : List ProductRow) (s : RandState) :
    ((generateOrders fuel customers products s).1).length = NUM_ORDERS + 5 := by
  simp only [generateOrders, List.length_append, List.length_take, List.length_drop,
    ordersLoop_length, List.length_range']
  have hle : (randIntN 8050 8150 s).1 ≤ 8150 := randIntN_le _ _ _ (by omega)
  simp [NUM_ORDERS]
  omega

/-- C3: generate_orders returns exactly NUM_ORDERS + 5 rows (10005 with the
default NUM_ORDERS = 10000) and generate_customers returns exactly
NUM_CUSTOMERS rows (2000 by default). -/
theorem row_counts_spec (fuel : Nat) (customers : List CustomerRow)
    (products : List ProductRow) (s t : RandState) :
    ((generateOrders fuel customers products s).1).length = NUM_ORDERS + 5 ∧
    ((generateOrders fuel customers products s).1).length = 10005 ∧
    ((generateCustomers t).1).length = NUM_CUSTOMERS ∧
    ((generateCustomers t).1).length = 2000 := by
  refine ⟨generateOrders_length fuel customers products s, ?_,
    generateCustomers_length t, ?_⟩
  · rw [generateOrders_length fuel customers products s]; rfl
  · rw [generateCustomers_length t]; rfl

end SetupDemo

namespace SetupDemo

-- ---------------------------------------------------------------------------
-- Connection lifetime (load_data)
-- ---------------------------------------------------------------------------

/-- C1 counterexample: when the very first database call (DROP TABLE
events) raises, load_data has opened the connection (duckdb.connect
succeeded) yet terminates without closing it, because the body has no
try/finally and the close is the last statement. -/
theorem load_data_close_counterexample :
    (loadDataTrace false (fun op => op == DbOp.dropT "events")).opened = true ∧
    (loadDataTrace false (fun op => op == DbOp.dropT "events")).closed = false := by
  constructor <;> rfl

/-- C1 amended: the connection is closed exactly on the exit path on which
duckdb.connect and every subsequent database call succeed; when a call
raises, the exception propagates out of load_data and con.close() is
skipped. -/
theorem load_data_close_iff (connectFails : Bool) (fails : DbOp → Bool) :
    (loadDataTrace connectFails fails).closed =
      (!connectFails && runOps fails loadDataOps) := by
  cases connectFails
  · cases h : runOps fails loadDataOps <;> simp [loadDataTrace, h]
  · simp [loadDataTrace]

-- ---------------------------------------------------------------------------
-- Determinism
-- ---------------------------------------------------------------------------

/-- C5: generation is a pure function of the seeded generator state: two
runs of the four generators from equal streams (as produced by seeding the
global generator with the same SEED) yield identical customer, product,
order and event row lists. -/
theorem generation_deterministic (fuel : Nat) (s1 s2 : RandState)
    (h : s1 = s2) : generateAll fuel s1 = generateAll fuel s2 := by
  rw [h]

/-- Witness for C5 at a concrete stream. -/
theorem generation_deterministic_witness :
    generateAll 0 (⟨fun _ => 0, 0⟩ : RandState) =
      generateAll 0 (⟨fun _ => 0, 0⟩ : RandState) :=
  generation_deterministic 0 ⟨fun _ => 0, 0⟩ ⟨fun _ => 0, 0⟩ rfl

-- ---------------------------------------------------------------------------
-- Index safety
-- ---------------------------------------------------------------------------

/-- C6: under the default constants no list index used by generation is out
of range: the pareto_choice index int(paretovariate(alpha)) % len(items)
is a valid index into every non-empty items list, and every
duplicate-source index duplicate_target + dup_offset (duplicate_target
drawn by randint(8050, 8150), dup_offset ≤ 4) is a valid index into the
NUM_ORDERS = 10000 generated order rows. -/
theorem index_safety_spec {α : Type} (items : List α) (h : items ≠ [])
    (s t : RandState) :
    (paretoIdx items.length s).1 < items.length ∧
    8050 ≤ (randIntN 8050 8150 t).1 ∧
    (randIntN 8050 8150 t).1 + 4 < NUM_ORDERS := by
  refine ⟨?_, le_randIntN _ _ _, ?_⟩
  · simp only [paretoIdx, randNext]
    exact Nat.mod_lt _ (List.length_pos.mpr h)
  · have hle := randIntN_le 8050 8150 t (by omega)
    simp only [NUM_ORDERS]
    omega

/-- Witness for C6 at a singleton list and a concrete stream. -/
theorem index_safety_spec_witness :
    (paretoIdx (List.length [5]) (⟨fun _ => 3, 0⟩ : RandState)).1 <
      List.length [5] ∧
    8050 ≤ (randIntN 8050 8150 (⟨fun _ => 3, 0⟩ : RandState)).1 ∧
    (randIntN 8050 8150 (⟨fun _ => 3, 0⟩ : RandState)).1 + 4 < NUM_ORDERS :=
  index_safety_spec [5] (by decide) ⟨fun _ => 3, 0⟩ ⟨fun _ => 3, 0⟩

-- ---------------------------------------------------------------------------
-- Seasonal date sampler
-- ---------------------------------------------------------------------------

/-- One unfolding of the retry case of seasonalDate. -/
theorem seasonalDate_succ_eq (fuel : Nat) (s : RandState) :
    seasonalDate (fuel + 1) s =
      if monthOf (randomDate s).1 = 10 ∨ monthOf (randomDate s).1 = 11 ∨
          monthOf (randomDate s).1 = 12 then randomDate s
      else if monthOf (randomDate s).1 = 1 ∨ monthOf (randomDate s).1 = 2 ∨
          monthOf (randomDate s).1 = 3 then
        if (randUnit (randomDate s).2).1 < 300000 then
          seasonalDate fuel (randUnit (randomDate s).2).2
        else ((randomDate s).1, (randUnit (randomDate s).2).2)
      else randomDate s := rfl

theorem seasonalDate_le (fuel : Nat) :
    ∀ s : RandState, (seasonalDate fuel s).1 ≤ DATE_DELTA := by
  induction fuel with
  | zero => intro s; exact randomDate_le s
  | succ fuel ih =>
    intro s
    rw [seasonalDate_succ_eq]
    split
    · exact randomDate_le s
    · split
      · split
        · exact ih _
        · exact randomDate_le s
      · exact randomDate_le s

/-- C9: the seasonal sampler draws a uniform date in [start, end] (day
offsets 0 .. 730 from 2024-01-01); an Oct/Nov/Dec draw is returned
immediately; a Jan/Feb/Mar draw is discarded and resampled when a fresh
uniform draw is below 0.30 and returned otherwise; every other draw is
returned; and every date the sampler ever returns lies in [start, end]. -/
theorem seasonal_date_spec (fuel : Nat) (s : RandState) :
    (seasonalDate fuel s).1 ≤ DATE_DELTA ∧
    (∀ d s1, randomDate s = (d, s1) →
      ((monthOf d = 10 ∨ monthOf d = 11 ∨ monthOf d = 12) →
        seasonalDate (fuel + 1) s = (d, s1)) ∧
      (¬(monthOf d = 10 ∨ monthOf d = 11 ∨ monthOf d = 12) →
        ¬(monthOf d = 1 ∨ monthOf d = 2 ∨ monthOf d = 3) →
        seasonalDate (fuel + 1) s = (d, s1)) ∧
      (∀ r s2, (monthOf d = 1 ∨ monthOf d = 2 ∨ monthOf d = 3) →
        randUnit s1 = (r, s2) →
        (r < 300000 → seasonalDate (fuel + 1) s = seasonalDate fuel s2) ∧
        (¬ r < 300000 → seasonalDate (fuel + 1) s = (d, s2)))) := by
  refine ⟨seasonalDate_le fuel s, ?_⟩
  intro d s1 h
  refine ⟨?_, ?_, ?_⟩
  · intro hq4
    rw [seasonalDate_succ_eq, h]
    simp [hq4]
  · intro hq4 hq1
    rw [seasonalDate_succ_eq, h]
    rw [if_neg hq4, if_neg hq1]
  · intro r s2 hq1 hr
    have hq4 : ¬(monthOf d = 10 ∨ monthOf d = 11 ∨ monthOf d = 12) := by
      rcases hq1 with h1 | h1 | h1 <;> omega
    constructor
    · intro hlt
      rw [seasonalDate_succ_eq, h]
      rw [if_neg hq4, if_pos hq1, hr]
      simp [hlt]
    · intro hge
      rw [seasonalDate_succ_eq, h]
      rw [if_neg hq4, if_pos hq1, hr]
      simp [hge]

/-- Witness for C9: the constant stream drawing day offset 274
(2024-10-01, an October date, accepted immediately). -/
theorem seasonal_date_spec_witness :
    (seasonalDate 0 (⟨fun _ => 274, 0⟩ : RandState)).1 ≤ DATE_DELTA ∧
    seasonalDate 1 (⟨fun _ => 274, 0⟩ : RandState) =
      (274, (⟨fun _ => 274, 1⟩ : RandState)) := by
  have h := seasonal_date_spec 0 (⟨fun _ => 274, 0⟩ : RandState)
  refine ⟨h.1, ?_⟩
  exact (h.2 274 (⟨fun _ => 274, 1⟩ : RandState) rfl).1 (by decide)

end SetupDemo

namespace SetupDemo

-- ---------------------------------------------------------------------------
-- Duplicate order rows
-- ---------------------------------------------------------------------------

theorem orderRow_oid (fuel : Nat) (cids pids : List Nat)
    (prices : List (Nat × ℚ)) (i : Nat) (s : RandState) :
    ((orderRow fuel cids pids prices i s).1).oid = i := rfl

theorem ordersLoop_map_oid (fuel : Nat) (cids pids : List Nat)
    (prices : List (Nat × ℚ)) (l : List Nat) :
    ∀ s : RandState,
      ((ordersLoop fuel cids pids prices l s).1).map (fun r => r.oid) = l := by
  induction l with
  | nil => intro s; rfl
  | cons i rest ih => intro s; simp [ordersLoop, orderRow_oid, ih]

/-- C2: the orders list is the NUM_ORDERS generated rows (whose order_ids
are exactly 1 .. NUM_ORDERS, all distinct) followed by verbatim copies of
the five consecutive rows at indices duplicate_target .. duplicate_target+4,
so the row count exceeds the distinct order_id count by exactly 5. -/
theorem duplicate_orders_spec (fuel : Nat) (customers : List CustomerRow)
    (products : List ProductRow) (s : RandState) :
    (((generateOrders fuel customers products s).1).take NUM_ORDERS).map
        (fun r => r.oid) = List.range' 1 NUM_ORDERS ∧
    ((generateOrders fuel customers products s).1).drop NUM_ORDERS =
      ((((generateOrders fuel customers products s).1).take NUM_ORDERS).drop
        (randIntN 8050 8150 s).1).take 5 ∧
    ((generateOrders fuel customers products s).1).length -
      ((((generateOrders fuel customers products s).1).map
        (fun r => r.oid)).toFinset).card = 5 := by
  have hmainlen :
      ((ordersLoop fuel (customers.map fun c => c.cid)
          (products.map fun p => p.pid)
          (products.map fun p => (p.pid, p.listPrice))
          (List.range' 1 NUM_ORDERS) (randIntN 8050 8150 s).2).1).length
        = NUM_ORDERS := by
    rw [ordersLoop_length, List.length_range']
  set main := (ordersLoop fuel (customers.map fun c => c.cid)
      (products.map fun p => p.pid)
      (products.map fun p => (p.pid, p.listPrice))
      (List.range' 1 NUM_ORDERS) (randIntN 8050 8150 s).2).1 with hmain
  set dt := (randIntN 8050 8150 s).1 with hdt
  have hrows : (generateOrders fuel customers products s).1 =
      main ++ (main.drop dt).take 5 := rfl
  have htake : (main ++ (main.drop dt).take 5).take NUM_ORDERS = main := by
    rw [← hmainlen, List.take_left]
  have hdrop : (main ++ (main.drop dt).take 5).drop NUM_ORDERS =
      (main.drop dt).take 5 := by
    rw [← hmainlen, List.drop_left]
  have hids : main.map (fun r => r.oid) = List.range' 1 NUM_ORDERS :=
    ordersLoop_map_oid _ _ _ _ _ _
  refine ⟨?_, ?_, ?_⟩
  · rw [hrows, htake, hids]
  · rw [hrows, htake, hdrop]
  · rw [hrows]
    have hsub : List.Sublist ((main.drop dt).take 5) main :=
      (List.take_sublist 5 (main.drop dt)).trans (List.drop_sublist dt main)
    have hsubset : ∀ x ∈ ((main.drop dt).take 5).map (fun r => r.oid),
        x ∈ main.map (fun r => r.oid) := fun x hx => by
      rcases List.mem_map.mp hx with ⟨r, hr, hxx⟩
      exact List.mem_map.mpr ⟨r, hsub.subset hr, hxx⟩
    have hunion :
        ((main ++ (main.drop dt).take 5).map (fun r => r.oid)).toFinset =
          (main.map (fun r => r.oid)).toFinset := by
      rw [List.map_append, List.toFinset_append]
      apply Finset.union_eq_left.mpr
      intro x hx
      rw [List.mem_toFinset] at hx ⊢
      exact hsubset x hx
    have hnodup : (main.map (fun r => r.oid)).Nodup := by
      rw [hids]; exact List.nodup_range' 1 NUM_ORDERS
    have hcard : ((main.map (fun r => r.oid)).toFinset).card = NUM_ORDERS := by
      rw [List.toFinset_card_of_nodup hnodup, List.length_map, hmainlen]
    have hlen5 : ((main.drop dt).take 5).length = 5 := by
      have hdtle : dt ≤ 8150 := randIntN_le _ _ _ (by omega)
      rw [List.length_take, List.length_drop, hmainlen]
      simp only [NUM_ORDERS] at *
      omega
    rw [hunion, hcard, List.length_append, hmainlen, hlen5]
    omega

end SetupDemo

namespace SetupDemo

-- ---------------------------------------------------------------------------
-- Positive totals (list prices are bounded below by 2.50)
-- ---------------------------------------------------------------------------

theorem cost_ge_five (s : RandState) : (5 : ℚ) ≤ round2 (uniformQ 5 200 s).1 := by
  have h := (uniformQ_le (by norm_num : (5 : ℚ) ≤ 200) s).1
  have h2 := round2_ge 500 (uniformQ 5 200 s).1 (by push_cast; linarith)
  have h3 : ((500 : ℤ) : ℚ) / 100 = 5 := by norm_num
  linarith

theorem round2_half_le (cost m : ℚ) (hc : 5 ≤ cost) (hm : 1 / 2 ≤ m) :
    (5 : ℚ) / 2 ≤ round2 (cost * m) := by
  have hmul : (5 : ℚ) / 2 ≤ cost * m := by nlinarith
  have h := round2_ge 250 (cost * m) (by push_cast; linarith)
  have h3 : ((250 : ℤ) : ℚ) / 100 = 5 / 2 := by norm_num
  linarith

theorem taxonomyRow_listPrice (pid : Nat) (category subcat : String)
    (s : RandState) :
    (5 : ℚ) / 2 ≤ ((taxonomyRow pid category subcat s).1).listPrice := by
  unfold taxonomyRow
  dsimp only
  split
  · apply round2_half_le
    · exact cost_ge_five _
    · exact (uniformQ_le (by norm_num : (1 : ℚ) / 2 ≤ 9 / 10) _).1
  · apply round2_half_le
    · exact cost_ge_five _
    · exact le_trans (by norm_num)
        (uniformQ_le (by norm_num : (6 : ℚ) / 5 ≤ 3) _).1

theorem topupRow_listPrice (pid : Nat) (s : RandState) :
    (5 : ℚ) / 2 ≤ ((topupRow pid s).1).listPrice := by
  unfold topupRow
  dsimp only
  apply round2_half_le
  · exact cost_ge_five _
  · exact le_trans (by norm_num)
      (uniformQ_le (by norm_num : (6 : ℚ) / 5 ≤ 3) _).1

theorem prodCount_listPrice (n : Nat) :
    ∀ (pid : Nat) (category subcat : String) (s : RandState)
      (p : ProductRow), p ∈ (prodCount n pid category subcat s).1 →
      (5 : ℚ) / 2 ≤ p.listPrice := by
  induction n with
  | zero => intro pid c sub s p hp; simp [prodCount] at hp
  | succ n ih =>
    intro pid c sub s p hp
    simp only [prodCount, List.mem_cons] at hp
    rcases hp with hp | hp
    · rw [hp]; exact taxonomyRow_listPrice _ _ _ _
    · exact ih _ _ _ _ _ hp

theorem subcatLoop_listPrice (subs : List String) :
    ∀ (pid per : Nat) (category : String) (s : RandState) (p : ProductRow),
      p ∈ (subcatLoop subs pid per category s).1 →
      (5 : ℚ) / 2 ≤ p.listPrice := by
  induction subs with
  | nil => intro pid per c s p hp; simp [subcatLoop] at hp
  | cons sub subs ih =>
    intro pid per c s p hp
    simp only [subcatLoop, List.mem_append] at hp
    rcases hp with hp | hp
    · exact prodCount_listPrice _ _ _ _ _ _ hp
    · exact ih _ _ _ _ _ hp

theorem catLoop_listPrice (cats : List (String × List String)) :
    ∀ (pid : Nat) (s : RandState) (p : ProductRow),
      p ∈ (catLoop cats pid s).1 → (5 : ℚ) / 2 ≤ p.listPrice := by
  induction cats with
  | nil => intro pid s p hp; simp [catLoop] at hp
  | cons kv rest ih =>
    intro pid s p hp
    cases kv with
    | mk c subs =>
      simp only [catLoop, List.mem_append] at hp
      rcases hp with hp | hp
      · exact subcatLoop_listPrice _ _ _ _ _ _ hp
      · exact ih _ _ _ hp

theorem topupN_listPrice (n : Nat) :
    ∀ (pid : Nat) (s : RandState) (p : ProductRow),
      p ∈ (topupN n pid s).1 → (5 : ℚ) / 2 ≤ p.listPrice := by
  induction n with
  | zero => intro pid s p hp; simp [topupN] at hp
  | succ n ih =>
    intro pid s p hp
    simp only [topupN, List.mem_cons] at hp
    rcases hp with hp | hp
    · rw [hp]; exact topupRow_listPrice _ _
    · exact ih _ _ _ hp

theorem generateProducts_listPrice (s : RandState) (p : ProductRow)
    (hp : p ∈ (generateProducts s).1) : (5 : ℚ) / 2 ≤ p.listPrice := by
  simp only [generateProducts, List.mem_append] at hp
  rcases hp with hp | hp
  · exact catLoop_listPrice _ _ _ _ hp
  · exact topupN_listPrice _ _ _ _ hp

theorem randChoice_mem {α : Type} (items : List α) (d : α) (s : RandState)
    (h : items ≠ []) : (randChoice items d s).1 ∈ items := by
  simp only [randChoice, randNext]
  exact getD_mem_of_lt _ _ _ (Nat.mod_lt _ (List.length_pos.mpr h))

theorem lookup_price_ge (ps : List ProductRow)
    (hp : ∀ p ∈ ps, (5 : ℚ) / 2 ≤ p.listPrice) :
    ∀ pid : Nat, pid ∈ ps.map (fun p => p.pid) →
      (5 : ℚ) / 2 ≤ (((ps.map (fun p => (p.pid, p.listPrice))).lookup pid).getD 0) := by
  induction ps with
  | nil => intro pid hpid; simp at hpid
  | cons p rest ih =>
    intro pid hpid
    simp only [List.map_cons, List.lookup]
    by_cases h : pid = p.pid
    · simp only [h, beq_self_eq_true, Option.getD_some]
      exact hp p (List.mem_cons_self _ _)
    · have hbeq : (pid == p.pid) = false := beq_false_of_ne h
      rw [hbeq]
      have hpid2 : pid ∈ rest.map (fun p => p.pid) := by
        simp only [List.map_cons, List.mem_cons] at hpid
        rcases hpid with h1 | h1
        · exact absurd h1 h
        · exact h1
      exact ih (fun q hq => hp q (List.mem_cons_of_mem _ hq)) pid hpid2

theorem total_pos_of (u : ℚ) (q : Nat) (hu : (5 : ℚ) / 2 ≤ u) (hq : 1 ≤ q) :
    0 < round2 (u * (q : ℚ)) := by
  have hqq : (1 : ℚ) ≤ (q : ℚ) := by exact_mod_cast hq
  have hge := round2_ge 250 (u * (q : ℚ)) (by push_cast; nlinarith)
  have h3 : ((250 : ℤ) : ℚ) / 100 = 5 / 2 := by norm_num
  linarith

theorem orderRow_total_pos (fuel : Nat) (cids : List Nat)
    (ps : List ProductRow) (hp : ∀ p ∈ ps, (5 : ℚ) / 2 ≤ p.listPrice)
    (hne : ps ≠ []) (i : Nat) (s : RandState) :
    0 < ((orderRow fuel cids (ps.map fun p => p.pid)
      (ps.map fun p => (p.pid, p.listPrice)) i s).1).totalAmount := by
  have hne2 : ps.map (fun p => p.pid) ≠ [] := by simpa using hne
  unfold orderRow
  dsimp only
  apply total_pos_of
  · exact lookup_price_ge ps hp _ (randChoice_mem _ 0 _ hne2)
  · apply choicesW_prop (fun q => 1 ≤ q)
    · intro x hx
      simp only [List.mem_cons, List.not_mem_nil, or_false] at hx
      omega
    · omega

end SetupDemo

namespace SetupDemo

theorem ordersLoop_total_pos (fuel : Nat) (cids : List Nat)
    (ps : List ProductRow) (hp : ∀ p ∈ ps, (5 : ℚ) / 2 ≤ p.listPrice)
    (hne : ps ≠ []) (l : List Nat) :
    ∀ s : RandState, ∀ r ∈ (ordersLoop fuel cids (ps.map fun p => p.pid)
      (ps.map fun p => (p.pid, p.listPrice)) l s).1, 0 < r.totalAmount := by
  induction l with
  | nil => intro s r hr; simp [ordersLoop] at hr
  | cons i rest ih =>
    intro s r hr
    simp only [ordersLoop, List.mem_cons] at hr
    rcases hr with hr | hr
    · rw [hr]; exact orderRow_total_pos fuel cids ps hp hne i s
    · exact ih _ r hr

/-- C7: every order row generated from generate_products output, whatever
its status, has a strictly positive total_amount: list prices are bounded
below by 2.50 (cost at least 5 times a multiplier at least 0.5, rounded to
cents), quantities are at least 1, and rounding unit_price * quantity to
cents preserves strict positivity. -/
theorem orders_total_positive (fuel : Nat) (customers : List CustomerRow)
    (s t : RandState) :
    (((generateOrders fuel customers (generateProducts s).1 t).1).all
      (fun r => decide ((0 : ℚ) < r.totalAmount))) = true := by
  rw [List.all_eq_true]
  intro r hr
  rw [decide_eq_true_eq]
  have hps : ∀ p ∈ (generateProducts s).1, (5 : ℚ) / 2 ≤ p.listPrice :=
    fun p hp => generateProducts_listPrice s p hp
  have hne : (generateProducts s).1 ≠ [] := by
    intro h
    have hlen := generateProducts_length s
    rw [h] at hlen
    simp [NUM_PRODUCTS] at hlen
  set main := (ordersLoop fuel (customers.map fun c => c.cid)
      ((generateProducts s).1.map fun p => p.pid)
      ((generateProducts s).1.map fun p => (p.pid, p.listPrice))
      (List.range' 1 NUM_ORDERS) (randIntN 8050 8150 t).2).1 with hmain
  have hrows : (generateOrders fuel customers (generateProducts s).1 t).1 =
      main ++ (main.drop (randIntN 8050 8150 t).1).take 5 := rfl
  rw [hrows] at hr
  have hmem : r ∈ main := by
    rcases List.mem_append.mp hr with h | h
    · exact h
    · exact ((List.take_sublist 5 _).trans
        (List.drop_sublist _ main)).subset h
  exact ordersLoop_total_pos fuel _ _ hps hne _ _ r hmem

end SetupDemo

namespace SetupDemo

-- ---------------------------------------------------------------------------
-- Event ids and count
-- ---------------------------------------------------------------------------

theorem eventsLoop_map_eid (n : Nat) (cids : List Nat) (fuel : Nat) :
    ∀ (eid sc : Nat) (s : RandState), n + 1 ≤ fuel + eid →
      ((eventsLoop n cids fuel eid sc s).1).map (fun e => e.eid) =
        List.range' eid (n + 1 - eid) := by
  induction fuel with
  | zero =>
    intro eid sc s h
    rw [(by omega : n + 1 - eid = 0)]
    rfl
  | succ fuel ih =>
    intro eid sc s h
    simp only [eventsLoop]
    split
    · rw [(by omega : n + 1 - eid = 0)]; rfl
    · split
      · rw [(by omega : n + 1 - eid = 1)]; rfl
      · split
        · split
          · rw [(by omega : n + 1 - eid = 2)]; rfl
          · split
            · split
              · rw [(by omega : n + 1 - eid = 3)]; rfl
              · split
                · split
                  · rw [(by omega : n + 1 - eid = 4)]; rfl
                  · simp only [List.map_cons]
                    rw [ih (eid + 4) (sc + 1),
                      (by omega : n + 1 - eid = (n + 1 - (eid + 4)) + 4),
                      ← List.range'_append]
                    · rfl
                    · omega
                · simp only [List.map_cons]
                  rw [ih (eid + 3) (sc + 1),
                    (by omega : n + 1 - eid = (n + 1 - (eid + 3)) + 3),
                    ← List.range'_append]
                  · rfl
                  · omega
            · simp only [List.map_cons]
              rw [ih (eid + 2) (sc + 1),
                (by omega : n + 1 - eid = (n + 1 - (eid + 2)) + 2),
                ← List.range'_append]
              · rfl
              · omega
        · simp only [List.map_cons]
          rw [ih (eid + 1) (sc + 1),
            (by omega : n + 1 - eid = (n + 1 - (eid + 1)) + 1),
            ← List.range'_append]
          · rfl
          · omega

end SetupDemo

namespace SetupDemo

/-- C10: generate_events returns exactly NUM_EVENTS rows, never fewer, with
event_id values 1, 2, ..., NUM_EVENTS appearing consecutively in order:
every append is guarded by an eid > NUM_EVENTS break and the loop runs
until eid exceeds NUM_EVENTS, so mid-session truncation never makes the
total undershoot the configured count. -/
theorem events_exact_count (customers : List CustomerRow) (s : RandState) :
    ((generateEvents customers s).1).map (fun e => e.eid) =
      List.range' 1 NUM_EVENTS ∧
    ((generateEvents customers s).1).length = NUM_EVENTS := by
  have h := eventsLoop_map_eid NUM_EVENTS (customers.map fun c => c.cid)
    NUM_EVENTS 1 1 s (by omega)
  constructor
  · simpa [generateEvents] using h
  · have hlen := congrArg List.length h
    rw [List.length_map, List.length_range'] at hlen
    simpa [generateEvents] using hlen

-- ---------------------------------------------------------------------------
-- Funnel ordering within sessions
-- ---------------------------------------------------------------------------

/-- The funnel obligations of a single event with respect to an event list:
a checkout_start needs an earlier add_to_cart of the same session in the
list, a purchase needs an earlier checkout_start of the same session. -/
def FunnelOkEvent (evs : List EventRow) (e : EventRow) : Prop :=
  (e.eventType = "checkout_start" →
    ∃ e2, e2 ∈ evs ∧ e2.sessionId = e.sessionId ∧
      e2.eventType = "add_to_cart" ∧ e2.ts < e.ts) ∧
  (e.eventType = "purchase" →
    ∃ e2, e2 ∈ evs ∧ e2.sessionId = e.sessionId ∧
      e2.eventType = "checkout_start" ∧ e2.ts < e.ts)

/-- Every event of the list satisfies its funnel obligations in the list. -/
def AllFunnelOk (l : List EventRow) : Prop := ∀ e ∈ l, FunnelOkEvent l e

theorem funnelOkEvent_mono {evs evs2 : List EventRow}
    (h : ∀ x ∈ evs, x ∈ evs2) {e : EventRow} (he : FunnelOkEvent evs e) :
    FunnelOkEvent evs2 e := by
  constructor
  · intro ht
    rcases he.1 ht with ⟨e2, hmem, hs⟩
    exact ⟨e2, h e2 hmem, hs⟩
  · intro ht
    rcases he.2 ht with ⟨e2, hmem, hs⟩
    exact ⟨e2, h e2 hmem, hs⟩

theorem funnelOk_of_ne {evs : List EventRow} {e : EventRow}
    (h1 : e.eventType ≠ "checkout_start") (h2 : e.eventType ≠ "purchase") :
    FunnelOkEvent evs e :=
  ⟨fun h => absurd h h1, fun h => absurd h h2⟩

theorem ts_lt (b a1 b1 a2 b2 : Nat) (s1 s2 : RandState)
    (h1 : a1 ≤ b1) (h : b1 < a2) :
    b + (randIntN a1 b1 s1).1 < b + (randIntN a2 b2 s2).1 := by
  have x1 := randIntN_le a1 b1 s1 h1
  have x2 := le_randIntN a2 b2 s2
  omega

theorem funnelOk_of_type {evs : List EventRow} {e : EventRow} (t : String)
    (ht : e.eventType = t) (h1 : t ≠ "checkout_start") (h2 : t ≠ "purchase") :
    FunnelOkEvent evs e :=
  ⟨fun h => absurd (ht.symm.trans h) h1, fun h => absurd (ht.symm.trans h) h2⟩

theorem ck_ne_purchase : ("checkout_start" : String) ≠ "purchase" := by decide

theorem pu_ne_checkout : ("purchase" : String) ≠ "checkout_start" := by decide

/-- The inner add_to_cart offset (1-10 min) precedes the checkout offset
(11-20 min), which precedes the purchase offset (21-30 min); each
truncation variant of a session block therefore satisfies the funnel
obligations, and later sessions satisfy them by induction. -/
theorem eventsLoop_funnel (n : Nat) (cids : List Nat) (fuel : Nat) :
    ∀ (eid sc : Nat) (s : RandState),
      AllFunnelOk (eventsLoop n cids fuel eid sc s).1 := by
  induction fuel with
  | zero => intro eid sc s e hmem; simp [eventsLoop] at hmem
  | succ fuel ih =>
    intro eid sc s
    simp only [eventsLoop]
    split
    · intro e hmem; simp at hmem
    · split
      · intro e hmem
        simp only [List.mem_cons, List.not_mem_nil, or_false] at hmem
        subst hmem
        exact funnelOk_of_type "page_view" rfl (by decide) (by decide)
      · split
        · split
          · intro e hmem
            simp only [List.mem_cons, List.not_mem_nil, or_false] at hmem
            rcases hmem with rfl | rfl
            · exact funnelOk_of_type "page_view" rfl (by decide) (by decide)
            · exact funnelOk_of_type "add_to_cart" rfl (by decide) (by decide)
          · split
            · split
              · intro e hmem
                simp only [List.mem_cons, List.not_mem_nil, or_false] at hmem
                rcases hmem with rfl | rfl | rfl
                · exact funnelOk_of_type "page_view" rfl (by decide) (by decide)
                · exact funnelOk_of_type "add_to_cart" rfl (by decide) (by decide)
                · exact ⟨fun _ => ⟨_, List.mem_cons_of_mem _
                    (List.mem_cons_self _ _), rfl, rfl,
                    ts_lt _ 1 10 11 20 _ _ (by omega) (by omega)⟩,
                    fun hp => absurd hp ck_ne_purchase⟩
              · split
                · split
                  · intro e hmem
                    simp only [List.mem_cons, List.not_mem_nil, or_false] at hmem
                    rcases hmem with rfl | rfl | rfl | rfl
                    · exact funnelOk_of_type "page_view" rfl (by decide) (by decide)
                    · exact funnelOk_of_type "add_to_cart" rfl (by decide) (by decide)
                    · exact ⟨fun _ => ⟨_, List.mem_cons_of_mem _
                        (List.mem_cons_self _ _), rfl, rfl,
                        ts_lt _ 1 10 11 20 _ _ (by omega) (by omega)⟩,
                        fun hp => absurd hp ck_ne_purchase⟩
                    · exact ⟨fun hc => absurd hc pu_ne_checkout,
                        fun _ => ⟨_, List.mem_cons_of_mem _
                          (List.mem_cons_of_mem _ (List.mem_cons_self _ _)),
                          rfl, rfl,
                          ts_lt _ 11 20 21 30 _ _ (by omega) (by omega)⟩⟩
                  · intro e hmem
                    simp only [List.mem_cons] at hmem
                    rcases hmem with rfl | rfl | rfl | rfl | hmem
                    · exact funnelOk_of_type "page_view" rfl (by decide) (by decide)
                    · exact funnelOk_of_type "add_to_cart" rfl (by decide) (by decide)
                    · exact ⟨fun _ => ⟨_, List.mem_cons_of_mem _
                        (List.mem_cons_self _ _), rfl, rfl,
                        ts_lt _ 1 10 11 20 _ _ (by omega) (by omega)⟩,
                        fun hp => absurd hp ck_ne_purchase⟩
                    · exact ⟨fun hc => absurd hc pu_ne_checkout,
                        fun _ => ⟨_, List.mem_cons_of_mem _
                          (List.mem_cons_of_mem _ (List.mem_cons_self _ _)),
                          rfl, rfl,
                          ts_lt _ 11 20 21 30 _ _ (by omega) (by omega)⟩⟩
                    · exact funnelOkEvent_mono
                        (fun x hx => by simp [hx]) (ih _ _ _ _ hmem)
                · intro e hmem
                  simp only [List.mem_cons] at hmem
                  rcases hmem with rfl | rfl | rfl | hmem
                  · exact funnelOk_of_type "page_view" rfl (by decide) (by decide)
                  · exact funnelOk_of_type "add_to_cart" rfl (by decide) (by decide)
                  · exact ⟨fun _ => ⟨_, List.mem_cons_of_mem _
                      (List.mem_cons_self _ _), rfl, rfl,
                      ts_lt _ 1 10 11 20 _ _ (by omega) (by omega)⟩,
                      fun hp => absurd hp ck_ne_purchase⟩
                  · exact funnelOkEvent_mono
                      (fun x hx => by simp [hx]) (ih _ _ _ _ hmem)
            · intro e hmem
              simp only [List.mem_cons] at hmem
              rcases hmem with rfl | rfl | hmem
              · exact funnelOk_of_type "page_view" rfl (by decide) (by decide)
              · exact funnelOk_of_type "add_to_cart" rfl (by decide) (by decide)
              · exact funnelOkEvent_mono
                  (fun x hx => by simp [hx]) (ih _ _ _ _ hmem)
        · intro e hmem
          simp only [List.mem_cons] at hmem
          rcases hmem with rfl | hmem
          · exact funnelOk_of_type "page_view" rfl (by decide) (by decide)
          · exact funnelOkEvent_mono
              (fun x hx => by simp [hx]) (ih _ _ _ _ hmem)

end SetupDemo

namespace SetupDemo

/-- Executable funnel-monotonicity check over an event list: every
checkout_start has an earlier add_to_cart of the same session in the list,
every purchase an earlier checkout_start. -/
def funnelOk (evs : List EventRow) : Bool :=
  evs.all fun e =>
    (!(e.eventType == "checkout_start") ||
      evs.any fun e2 => e2.sessionId == e.sessionId &&
        e2.eventType == "add_to_cart" && decide (e2.ts < e.ts)) &&
    (!(e.eventType == "purchase") ||
      evs.any fun e2 => e2.sessionId == e.sessionId &&
        e2.eventType == "checkout_start" && decide (e2.ts < e.ts))

theorem funnelOk_eq_true_of (evs : List EventRow) (h : AllFunnelOk evs) :
    funnelOk evs = true := by
  rw [funnelOk, List.all_eq_true]
  intro e he
  have h2 := h e he
  rw [Bool.and_eq_true, Bool.or_eq_true, Bool.or_eq_true]
  constructor
  · by_cases ht : e.eventType = "checkout_start"
    · right
      rw [List.any_eq_true]
      rcases h2.1 ht with ⟨e2, hmem, hs, htt, hts⟩
      exact ⟨e2, hmem, by simp [hs, htt, hts]⟩
    · left; simp [ht]
  · by_cases ht : e.eventType = "purchase"
    · right
      rw [List.any_eq_true]
      rcases h2.2 ht with ⟨e2, hmem, hs, htt, hts⟩
      exact ⟨e2, hmem, by simp [hs, htt, hts]⟩
    · left; simp [ht]

/-- C4: for every session in the generate_events output, a checkout_start
event is preceded (strictly, in timestamp) by an add_to_cart event of the
same session, and a purchase event by a checkout_start event of the same
session: the 1-10 minute cart offset lies strictly below the 11-20 minute
checkout offset, which lies strictly below the 21-30 minute purchase
offset from the session base time. -/
theorem events_funnel_monotone (customers : List CustomerRow) (s : RandState) :
    funnelOk (generateEvents customers s).1 = true := by
  have h := eventsLoop_funnel NUM_EVENTS
    (customers.map fun c => c.cid) NUM_EVENTS 1 1 s
  exact funnelOk_eq_true_of _ h

end SetupDemo
